import Mathlib

/-!
Shallow embedding of the agent supervision core of the repository
(src/src/core/agent.ts and src/src/types/index.ts), together with proofs
of its lifecycle, health-check and registry properties.

Modelling conventions:
* Machine state that the TypeScript class mutates (`state`, `startedAt`,
  `lastHealthCheck`, the health timer handle) is carried explicitly in a
  `BaseAgent` structure; each method returns its result together with the
  post-state.
* The abstract hooks `onStart`, `onStop`, `performHealthCheck` are supplied
  by concrete subclasses; a single invocation of a hook is modelled by an
  `Except String _` value (the thrown `Error` is represented by its message
  string).
* `Date` timestamps are modelled as `Nat` milliseconds, passed in as `now`.
* Logging and event emission are observational side channels with no effect
  on the supervised state and are not modelled.
-/

namespace DevOpsAgent

/-- Lifecycle states of an agent (src/src/types/index.ts, `AgentState`). -/
inductive AgentState where
  | starting
  | running
  | stopping
  | stopped
  | error
deriving DecidableEq, Repr

/-- Rendering of a lifecycle state, as interpolated into error messages. -/
def AgentState.toString : AgentState → String
  | .starting => "starting"
  | .running => "running"
  | .stopping => "stopping"
  | .stopped => "stopped"
  | .error => "error"

/-- Health statuses (src/src/types/index.ts, `HealthStatus`). -/
inductive HealthStatus where
  | healthy
  | unhealthy
  | degraded
  | unknown
deriving DecidableEq, Repr

/-- A health-check result (src/src/types/index.ts, `HealthCheck`).
The optional `details` record is modelled by its rendered error entry. -/
structure HealthCheck where
  status : HealthStatus
  timestamp : Nat
  message : Option String := none
  details : Option String := none
deriving DecidableEq, Repr

/-- Agent configuration (src/src/types/index.ts, `AgentConfig`).
Numeric fields are JavaScript numbers; only their sign matters to the
validation schema, so they are modelled as integers. -/
structure AgentConfig where
  id : String
  name : String
  version : String
  enabled : Bool
  dependencies : List String
  healthCheckInterval : Int
  maxRetries : Int
  timeout : Int
deriving DecidableEq, Repr

/-- Splitting a character list at every dot: the separator structure the
version regular expression of the schema imposes on the string. -/
def splitDots : List Char → List (List Char)
  | [] => [[]]
  | c :: cs =>
      if c = '.' then [] :: splitDots cs
      else
        match splitDots cs with
        | g :: gs => (c :: g) :: gs
        | [] => [[c]]

/-- One or more ASCII digits: one of the three groups of the version
regular expression of the schema. -/
def digits1 (l : List Char) : Bool :=
  !l.isEmpty && l.all Char.isDigit

/-- The semantic-version check of the schema: the string must match the
anchored pattern digits, dot, digits, dot, digits. -/
def semverMatch (s : String) : Bool :=
  match splitDots s.data with
  | [a, b, c] => digits1 a && digits1 b && digits1 c
  | _ => false

/-- `AgentConfigSchema.safeParse(config).success`
(src/src/types/index.ts lines 123-132): id and name non-empty, version a
MAJOR.MINOR.PATCH string, positive health-check interval, nonnegative
max retries, positive timeout. -/
def AgentConfigSchema.parseOk (c : AgentConfig) : Bool :=
  decide (1 ≤ c.id.length) && decide (1 ≤ c.name.length) && semverMatch c.version
    && decide (0 < c.healthCheckInterval) && decide (0 ≤ c.maxRetries)
    && decide (0 < c.timeout)

/-- The supervised-agent state owned by a `BaseAgent` instance
(src/src/core/agent.ts lines 26-32). The field defaults are the
field initializers of the class. -/
structure BaseAgent where
  config : AgentConfig
  state : AgentState := .stopped
  healthTimerActive : Bool := false
  startedAt : Option Nat := none
  lastHealthCheck : Option HealthCheck := none
deriving DecidableEq, Repr

/-- The `BaseAgent` constructor (src/src/core/agent.ts lines 34-52):
validate the configuration with the schema and throw on failure, so that
no agent value exists for an invalid configuration. -/
def BaseAgent.construct (config : AgentConfig) : Except String BaseAgent :=
  if AgentConfigSchema.parseOk config then
    Except.ok { config := config }
  else
    Except.error "Invalid agent configuration"

/-- `BaseAgent.start` (src/src/core/agent.ts lines 57-97).
`validateCanStart` throws before any mutation unless the state is
`stopped`; otherwise the agent transitions to `starting`, records the
start timestamp, runs `onStart`, and on success transitions to `running`
and starts health monitoring, while on hook failure
`handleStartupError` moves it to `error` and the error is rethrown.
The unawaited initial health check fired by `startHealthMonitoring` is a
separate later `checkHealth` step. -/
def BaseAgent.start (a : BaseAgent) (now : Nat) (onStart : Except String Unit) :
    Except String Unit × BaseAgent :=
  if a.state ≠ AgentState.stopped then
    (Except.error ("Cannot start agent in state: " ++ a.state.toString), a)
  else
    let a1 := { a with state := AgentState.starting, startedAt := some now }
    match onStart with
    | Except.ok _ =>
        (Except.ok (), { a1 with state := AgentState.running, healthTimerActive := true })
    | Except.error e =>
        (Except.error e, { a1 with state := AgentState.error })

/-- `BaseAgent.stop` (src/src/core/agent.ts lines 102-140).
If the agent is already `stopped` or `stopping` the call is a silent
no-op; otherwise it transitions to `stopping`, cancels the health timer,
runs `onStop`, and lands in `stopped` on success or, via
`handleShutdownError`, in `error` with the error rethrown. -/
def BaseAgent.stop (a : BaseAgent) (onStop : Except String Unit) :
    Except String Unit × BaseAgent :=
  if a.state = AgentState.stopped ∨ a.state = AgentState.stopping then
    (Except.ok (), a)
  else
    let a1 := { a with state := AgentState.stopping, healthTimerActive := false }
    match onStop with
    | Except.ok _ => (Except.ok (), { a1 with state := AgentState.stopped })
    | Except.error e => (Except.error e, { a1 with state := AgentState.error })

/-- `BaseAgent.checkHealth` (src/src/core/agent.ts lines 168-200).
The result of `performHealthCheck` is cached and returned; if the hook
throws, the catch block builds an `unhealthy` result carrying the error
message, caches it and returns it, so the method never rethrows. -/
def BaseAgent.checkHealth (a : BaseAgent) (now : Nat)
    (performHealthCheck : Except String HealthCheck) : HealthCheck × BaseAgent :=
  match performHealthCheck with
  | Except.ok health => (health, { a with lastHealthCheck := some health })
  | Except.error e =>
      let failedHealth : HealthCheck :=
        { status := HealthStatus.unhealthy, timestamp := now,
          message := some e, details := some ("Error: " ++ e) }
      (failedHealth, { a with lastHealthCheck := some failedHealth })

/-- The snapshot returned by `getInfo` (src/src/types/index.ts,
`AgentInfo`); the metadata record is flattened into the `version`,
`dependencies` and `uptime` fields. -/
structure AgentInfo where
  id : String
  name : String
  state : AgentState
  health : HealthCheck
  startedAt : Option Nat
  lastSeen : Nat
  version : String
  dependencies : List String
  uptime : Int
deriving DecidableEq, Repr

/-- `BaseAgent.getInfo` (src/src/core/agent.ts lines 145-163): a pure
snapshot. The health field falls back to an `unknown` result with an
explanatory message when no check has run; uptime is now minus the start
timestamp, or zero when the agent never started. -/
def BaseAgent.getInfo (a : BaseAgent) (now : Nat) : AgentInfo :=
  { id := a.config.id
    name := a.config.name
    state := a.state
    health := a.lastHealthCheck.getD
      { status := HealthStatus.unknown, timestamp := now,
        message := some "No health check performed yet" }
    startedAt := a.startedAt
    lastSeen := now
    version := a.config.version
    dependencies := a.config.dependencies
    uptime :=
      match a.startedAt with
      | some t => (now : Int) - (t : Int)
      | none => 0 }

/-- Whether an `Except` value is a success, as the mapped closure inside
`startAll` classifies each settled outcome. -/
def exceptOk {ε α : Type} : Except ε α → Bool
  | Except.ok _ => true
  | Except.error _ => false

/-- The registry of agents keyed by identifier
(src/src/core/agent.ts lines 310-312); the `Map` is modelled by its
insertion-ordered association list. -/
structure AgentRegistry where
  agents : List (String × BaseAgent)
deriving DecidableEq, Repr

/-- The outcome of `startAll` (src/src/core/agent.ts line 366):
identifiers of agents whose start succeeded and of those whose start
failed. -/
structure StartAllResult where
  successful : List String
  failed : List String
deriving DecidableEq, Repr

/-- `AgentRegistry.startAll` (src/src/core/agent.ts lines 366-398):
each agent is started by its own settled promise whose closure catches
the failure of that one agent, so no outcome rejects; the fulfilled
outcomes are partitioned into successful and failed identifier lists.
The per-agent `onStart` hook outcome is given by identifier. -/
def AgentRegistry.startAll (reg : AgentRegistry) (now : Nat)
    (onStart : String → Except String Unit) : StartAllResult × AgentRegistry :=
  let results := reg.agents.map (fun p => (p.1, BaseAgent.start p.2 now (onStart p.1)))
  ({ successful := (results.filter (fun p => exceptOk p.2.1)).map Prod.fst
     failed := (results.filter (fun p => !exceptOk p.2.1)).map Prod.fst },
   { agents := results.map (fun p => (p.1, p.2.2)) })

/-- `AgentRegistry.stopAll` (src/src/core/agent.ts lines 403-416):
every agent receives a stop attempt whose failure is caught and logged
inside its own promise, and the call resolves once all attempts have
settled, never raising. -/
def AgentRegistry.stopAll (reg : AgentRegistry)
    (onStop : String → Except String Unit) : AgentRegistry :=
  { agents := reg.agents.map (fun p => (p.1, (BaseAgent.stop p.2 (onStop p.1)).2)) }

/-- Event-loop events of the recurring health-check timer installed by
`startHealthMonitoring` (src/src/core/agent.ts lines 228-257): the
interval callback fires, or an awaited `checkHealth` invocation finishes
and its finally block runs. -/
inductive TimerEvent where
  | fire
  | complete
deriving DecidableEq, Repr

/-- The observable state of the interval callback closure: its
`healthCheckInProgress` flag, the number of hook invocations begun and
not yet finished, and the total number of invocations begun. -/
structure MonitorState where
  healthCheckInProgress : Bool
  outstanding : Nat
  invocations : Nat
deriving DecidableEq, Repr

/-- The closure state when `startHealthMonitoring` installs the timer:
`healthCheckInProgress` is initialised to false and no timer-driven
check has begun. -/
def initMonitorState : MonitorState :=
  { healthCheckInProgress := false, outstanding := 0, invocations := 0 }

/-- One event of the interval callback (src/src/core/agent.ts lines
235-249): a firing while a check is in progress returns immediately
(logged, nothing queued); otherwise the flag is set and a check begins.
A completion clears the flag in the finally block. -/
def timerStep (s : MonitorState) : TimerEvent → MonitorState
  | TimerEvent.fire =>
      if s.healthCheckInProgress then s
      else
        { healthCheckInProgress := true, outstanding := s.outstanding + 1,
          invocations := s.invocations + 1 }
  | TimerEvent.complete =>
      if s.outstanding = 0 then s
      else { s with healthCheckInProgress := false, outstanding := s.outstanding - 1 }

/-- The closure state after an arbitrary interleaving of timer firings
and check completions, starting from a fresh `startHealthMonitoring`. -/
def runTimer (events : List TimerEvent) : MonitorState :=
  events.foldl timerStep initMonitorState

/-- A concrete valid configuration used for concrete evaluations. -/
def cfgA : AgentConfig :=
  { id := "agent-a", name := "A", version := "1.0.0", enabled := true,
    dependencies := [], healthCheckInterval := 1000, maxRetries := 3,
    timeout := 5000 }

/-- A second concrete valid configuration with a distinct identifier. -/
def cfgB : AgentConfig :=
  { cfgA with id := "agent-b", name := "B" }

/-- A freshly constructed agent over `cfgA`. -/
def agentA : BaseAgent := { config := cfgA }

/-- A freshly constructed agent over `cfgB`. -/
def agentB : BaseAgent := { config := cfgB }

/-- An agent over `cfgA` currently in the `running` state. -/
def runningAgentA : BaseAgent := { config := cfgA, state := AgentState.running }

/-- An agent over `cfgB` currently in the `running` state. -/
def runningAgentB : BaseAgent := { config := cfgB, state := AgentState.running }

/-- C1: for every agent whose current lifecycle state is not `stopped`,
`start()` fails with the invalid-state-transition error carrying the
current state, and the agent (its state in particular) is left
unchanged. -/
theorem start_nonStopped_fails (a : BaseAgent) (now : Nat)
    (onStart : Except String Unit) (h : a.state ≠ AgentState.stopped) :
    a.start now onStart =
      (Except.error ("Cannot start agent in state: " ++ a.state.toString), a) := by
  simp [BaseAgent.start, h]

/-- C1 witness: `start()` on a `running` agent fails with the error
carrying `running` and leaves the agent unchanged. -/
theorem start_nonStopped_fails_witness :
    runningAgentA.start 5 (Except.ok ()) =
      (Except.error ("Cannot start agent in state: " ++ AgentState.running.toString),
       runningAgentA) :=
  start_nonStopped_fails runningAgentA 5 (Except.ok ()) (by decide)

/-- C3: whenever the `performHealthCheck` hook throws, `checkHealth()`
returns an `unhealthy` result carrying the error message and caches it
as the most recent health check; the total return type records that the
exception is never propagated to the caller. -/
theorem checkHealth_catches (a : BaseAgent) (now : Nat) (e : String) :
    (a.checkHealth now (Except.error e)).1.status = HealthStatus.unhealthy ∧
    (a.checkHealth now (Except.error e)).1.message = some e ∧
    (a.checkHealth now (Except.error e)).2.lastHealthCheck
      = some (a.checkHealth now (Except.error e)).1 := by
  simp [BaseAgent.checkHealth]

/-- C6: `stop()` on an agent already `stopped` or `stopping` is a silent
no-op: it succeeds, leaves the agent unchanged and ignores `onStop`; and
whenever a `stop()` succeeds, a second `stop()` right after it succeeds
as a no-op as well, so stopping twice in succession never throws. -/
theorem stop_idempotent :
    (∀ (a : BaseAgent) (r : Except String Unit),
      a.state = AgentState.stopped ∨ a.state = AgentState.stopping →
        a.stop r = (Except.ok (), a)) ∧
    (∀ (a : BaseAgent) (r1 r2 : Except String Unit),
      (a.stop r1).1 = Except.ok () →
        (a.stop r1).2.stop r2 = (Except.ok (), (a.stop r1).2)) := by
  constructor
  · intro a r h
    simp [BaseAgent.stop, h]
  · intro a r1 r2 h
    by_cases hs : a.state = AgentState.stopped ∨ a.state = AgentState.stopping
    · simp [BaseAgent.stop, hs]
    · cases r1 with
      | ok u => simp [BaseAgent.stop, hs]
      | error e => simp [BaseAgent.stop, hs] at h

/-- C6 witness: a second `stop()` right after stopping a running agent
is a successful no-op, and `stop()` on an already stopped agent is a
successful no-op. -/
theorem stop_idempotent_witness :
    agentA.stop (Except.ok ()) = (Except.ok (), agentA) ∧
    (runningAgentA.stop (Except.ok ())).2.stop (Except.ok ())
      = (Except.ok (), (runningAgentA.stop (Except.ok ())).2) :=
  ⟨stop_idempotent.1 agentA (Except.ok ()) (Or.inl rfl),
   stop_idempotent.2 runningAgentA (Except.ok ()) (Except.ok ()) rfl⟩

/-- C7: every freshly constructed agent (on which no health check has
run) reports health status `unknown` with an explanatory message, an
absent start timestamp and an uptime of zero in its `getInfo` snapshot. -/
theorem getInfo_fresh (c : AgentConfig) (a : BaseAgent) (now : Nat)
    (h : BaseAgent.construct c = Except.ok a) :
    (a.getInfo now).health.status = HealthStatus.unknown ∧
    (a.getInfo now).health.message = some "No health check performed yet" ∧
    (a.getInfo now).startedAt = none ∧
    (a.getInfo now).uptime = 0 := by
  have ha : a = { config := c } := by
    by_cases hp : AgentConfigSchema.parseOk c
    · simp [BaseAgent.construct, hp] at h
      exact h.symm
    · simp [BaseAgent.construct, hp] at h
  subst ha
  simp [BaseAgent.getInfo]

/-- C7 witness: the freshly constructed agent over `cfgA` reports
`unknown` health with the explanatory message, no start timestamp and
zero uptime. -/
theorem getInfo_fresh_witness :
    (agentA.getInfo 42).health.status = HealthStatus.unknown ∧
    (agentA.getInfo 42).health.message = some "No health check performed yet" ∧
    (agentA.getInfo 42).startedAt = none ∧
    (agentA.getInfo 42).uptime = 0 :=
  getInfo_fresh cfgA agentA 42 rfl

/-- A configuration identical to `cfgA` except that `maxRetries` is
zero, a non-positive value. -/
def cfgZeroRetries : AgentConfig := { cfgA with maxRetries := 0 }

/-- A configuration identical to `cfgA` except that the identifier is
empty. -/
def cfgEmptyId : AgentConfig := { cfgA with id := "" }

/-- C4 counterexample: a configuration whose `maxRetries` is zero (a
non-positive value) passes validation and construction succeeds, because
the schema only requires `maxRetries` to be nonnegative; the claim that
construction fails for every non-positive max-retries value is false. -/
theorem construct_zeroMaxRetries_succeeds :
    cfgZeroRetries.maxRetries ≤ 0 ∧
    BaseAgent.construct cfgZeroRetries = Except.ok { config := cfgZeroRetries } :=
  ⟨by decide, rfl⟩

/-- C4 amended: for every config with an empty identifier, a version not
of the form MAJOR.MINOR.PATCH, a non-positive health-check interval, a
negative max-retries, or a non-positive timeout, construction fails
synchronously and no agent value is produced. -/
theorem construct_invalid_config_fails (c : AgentConfig)
    (h : c.id = "" ∨ semverMatch c.version = false ∨ c.healthCheckInterval ≤ 0 ∨
         c.maxRetries < 0 ∨ c.timeout ≤ 0) :
    BaseAgent.construct c = Except.error "Invalid agent configuration" := by
  have hp : AgentConfigSchema.parseOk c = false := by
    rcases h with h | h | h | h | h
    · simp [AgentConfigSchema.parseOk, h]
    · simp [AgentConfigSchema.parseOk, h]
    · simp [AgentConfigSchema.parseOk, show ¬(0 < c.healthCheckInterval) by omega]
    · simp [AgentConfigSchema.parseOk, show ¬(0 ≤ c.maxRetries) by omega]
    · simp [AgentConfigSchema.parseOk, show ¬(0 < c.timeout) by omega]
  simp [BaseAgent.construct, hp]

/-- C4 amended witness: construction over the empty-identifier
configuration fails with the invalid-configuration error. -/
theorem construct_invalid_config_fails_witness :
    BaseAgent.construct cfgEmptyId = Except.error "Invalid agent configuration" :=
  construct_invalid_config_fails cfgEmptyId (Or.inl rfl)

/-- C8 counterexample: on a `stopped` agent whose hook throws,
`checkHealth` reports status `unhealthy`, not `unknown` as the claim
states. -/
theorem checkHealth_throw_not_unknown :
    agentA.state = AgentState.stopped ∧
    (agentA.checkHealth 7 (Except.error "boom")).1.status = HealthStatus.unhealthy ∧
    (agentA.checkHealth 7 (Except.error "boom")).1.status ≠ HealthStatus.unknown := by
  decide

/-- C8 amended: `checkHealth()` may be called in any lifecycle state
(there is no state precondition and the lifecycle state is untouched);
it reports whatever `performHealthCheck` returns, or a result with
status `unhealthy` if the hook itself throws. -/
theorem checkHealth_any_state (a : BaseAgent) (now : Nat) :
    (∀ h : HealthCheck,
      (a.checkHealth now (Except.ok h)).1 = h ∧
      (a.checkHealth now (Except.ok h)).2.state = a.state) ∧
    (∀ e : String,
      (a.checkHealth now (Except.error e)).1.status = HealthStatus.unhealthy ∧
      (a.checkHealth now (Except.error e)).2.state = a.state) := by
  constructor <;> intro x <;> simp [BaseAgent.checkHealth]

/-- The invariant of the interval callback closure: a hook invocation is
outstanding exactly when the `healthCheckInProgress` flag is set. -/
def monitorInv (s : MonitorState) : Prop :=
  s.outstanding = cond s.healthCheckInProgress 1 0

/-- Each timer event preserves the closure invariant. -/
theorem timerStep_inv (s : MonitorState) (e : TimerEvent) (h : monitorInv s) :
    monitorInv (timerStep s e) := by
  unfold monitorInv at h ⊢
  cases e <;> cases hb : s.healthCheckInProgress <;> simp_all [timerStep]

/-- The closure invariant holds after any event sequence from any state
satisfying it. -/
theorem foldl_timerStep_inv (events : List TimerEvent) (s : MonitorState)
    (h : monitorInv s) : monitorInv (events.foldl timerStep s) := by
  induction events generalizing s with
  | nil => exact h
  | cons e es ih => exact ih _ (timerStep_inv s e h)

/-- C9: under every interleaving of timer firings and check completions,
at most one timer-driven `performHealthCheck` invocation is outstanding,
and a firing while a check is in progress is skipped outright: the
closure state is unchanged (nothing queued, nothing stacked, no new
invocation). -/
theorem timer_no_overlap :
    (∀ events : List TimerEvent, (runTimer events).outstanding ≤ 1) ∧
    (∀ s : MonitorState, s.healthCheckInProgress = true →
      timerStep s TimerEvent.fire = s) := by
  constructor
  · intro events
    have h := foldl_timerStep_inv events initMonitorState rfl
    unfold monitorInv at h
    show (events.foldl timerStep initMonitorState).outstanding ≤ 1
    rw [h]
    cases (events.foldl timerStep initMonitorState).healthCheckInProgress <;> simp
  · intro s hs
    simp [timerStep, hs]

/-- C9 witness: a firing, a second firing while the first check is still
outstanding, a completion and a third firing leave at most one check
outstanding, and a firing with the flag set is a no-op on a concrete
closure state. -/
theorem timer_no_overlap_witness :
    (runTimer [TimerEvent.fire, TimerEvent.fire, TimerEvent.complete,
       TimerEvent.fire]).outstanding ≤ 1 ∧
    timerStep { healthCheckInProgress := true, outstanding := 1, invocations := 1 }
        TimerEvent.fire
      = { healthCheckInProgress := true, outstanding := 1, invocations := 1 } :=
  ⟨timer_no_overlap.1 _, timer_no_overlap.2 _ rfl⟩

/-- C10: when the `onStart` hook throws during `start()` on a stopped
agent, the start timestamp recorded at the beginning of the attempt is
retained: the call rethrows, the agent lands in `error`, and `getInfo`
reports the recorded `startedAt` together with an uptime computed from
it, which is non-zero once any time has elapsed since the attempt. -/
theorem failed_start_retains_startedAt (a : BaseAgent) (t now : Nat) (e : String)
    (hstate : a.state = AgentState.stopped) (htime : t < now) :
    (a.start t (Except.error e)).1 = Except.error e ∧
    (a.start t (Except.error e)).2.state = AgentState.error ∧
    ((a.start t (Except.error e)).2.getInfo now).startedAt = some t ∧
    ((a.start t (Except.error e)).2.getInfo now).uptime = (now : Int) - (t : Int) ∧
    ((a.start t (Except.error e)).2.getInfo now).uptime ≠ 0 := by
  simp [BaseAgent.start, hstate, BaseAgent.getInfo]
  omega

/-- C10 witness: starting the fresh agent at time 3 with a throwing hook
and taking the snapshot at time 10 shows state `error`, the retained
start timestamp 3 and the non-zero uptime 7. -/
theorem failed_start_retains_startedAt_witness :
    (agentA.start 3 (Except.error "boom")).1 = Except.error "boom" ∧
    (agentA.start 3 (Except.error "boom")).2.state = AgentState.error ∧
    ((agentA.start 3 (Except.error "boom")).2.getInfo 10).startedAt = some 3 ∧
    ((agentA.start 3 (Except.error "boom")).2.getInfo 10).uptime
      = (10 : Int) - (3 : Int) ∧
    ((agentA.start 3 (Except.error "boom")).2.getInfo 10).uptime ≠ 0 :=
  failed_start_retains_startedAt agentA 3 10 "boom" rfl (by decide)

/-- A hook assignment for a two-agent registry in which agent-b's hook
throws and every other hook succeeds. -/
def hooksFailB : String → Except String Unit :=
  fun s => if s = "agent-b" then Except.error "boom" else Except.ok ()

/-- C2: `startAll()` never throws (it is a total function into a result
value): every registered agent identifier lands in the `successful` or
the `failed` list according to that agent's own start outcome, no matter
how the other agents fare; and with one succeeding and one failing agent
the successful one ends in `running` and the failing one in `error`,
with the result enumerating both. -/
theorem startAll_isolates :
    (∀ (reg : AgentRegistry) (now : Nat) (onStart : String → Except String Unit)
       (id : String) (a : BaseAgent), (id, a) ∈ reg.agents →
         id ∈ (reg.startAll now onStart).1.successful ∨
         id ∈ (reg.startAll now onStart).1.failed) ∧
    (∀ (ia ib : String) (aa ab : BaseAgent) (now : Nat)
       (onStart : String → Except String Unit) (e : String),
       aa.state = AgentState.stopped → ab.state = AgentState.stopped →
       onStart ia = Except.ok () → onStart ib = Except.error e →
       (AgentRegistry.startAll ⟨[(ia, aa), (ib, ab)]⟩ now onStart).1.successful
           = [ia] ∧
       (AgentRegistry.startAll ⟨[(ia, aa), (ib, ab)]⟩ now onStart).1.failed
           = [ib] ∧
       ((AgentRegistry.startAll ⟨[(ia, aa), (ib, ab)]⟩ now onStart).2.agents.map
           fun p => (p.1, p.2.state))
         = [(ia, AgentState.running), (ib, AgentState.error)]) := by
  constructor
  · intro reg now onStart id a hmem
    have hx : (id, BaseAgent.start a now (onStart id)) ∈
        reg.agents.map (fun p => (p.1, BaseAgent.start p.2 now (onStart p.1))) :=
      List.mem_map_of_mem _ hmem
    cases hb : exceptOk (BaseAgent.start a now (onStart id)).1 with
    | true =>
        left
        simp only [AgentRegistry.startAll]
        exact List.mem_map_of_mem Prod.fst (List.mem_filter.mpr ⟨hx, hb⟩)
    | false =>
        right
        simp only [AgentRegistry.startAll]
        exact List.mem_map_of_mem Prod.fst (List.mem_filter.mpr ⟨hx, by simp [hb]⟩)
  · intro ia ib aa ab now onStart e ha hb hoa hob
    refine ⟨?_, ?_, ?_⟩ <;>
      simp [AgentRegistry.startAll, BaseAgent.start, ha, hb, hoa, hob, exceptOk]

/-- C2 witness: starting the two-agent registry in which agent-b's hook
throws yields successful agent-a in `running`, failed agent-b in
`error`, and both enumerated in the result. -/
theorem startAll_isolates_witness :
    (AgentRegistry.startAll ⟨[("agent-a", agentA), ("agent-b", agentB)]⟩ 5
        hooksFailB).1.successful = ["agent-a"] ∧
    (AgentRegistry.startAll ⟨[("agent-a", agentA), ("agent-b", agentB)]⟩ 5
        hooksFailB).1.failed = ["agent-b"] ∧
    ((AgentRegistry.startAll ⟨[("agent-a", agentA), ("agent-b", agentB)]⟩ 5
        hooksFailB).2.agents.map fun p => (p.1, p.2.state))
      = [("agent-a", AgentState.running), ("agent-b", AgentState.error)] :=
  startAll_isolates.2 "agent-a" "agent-b" agentA agentB 5 hooksFailB "boom"
    rfl rfl rfl rfl

/-- C5: `stopAll()` never raises (it is a total function on registries):
every registered agent receives its own stop attempt, whose outcome
depends only on that agent's state and hook; a running agent whose
`onStop` succeeds ends `stopped` regardless of every sibling's hook, and
in the two-agent scenario with one throwing `onStop` the other agent
still transitions to `stopped`. -/
theorem stopAll_isolates :
    (∀ (reg : AgentRegistry) (onStop : String → Except String Unit)
       (id : String) (a : BaseAgent), (id, a) ∈ reg.agents →
         a.state = AgentState.running → onStop id = Except.ok () →
         (id, (BaseAgent.stop a (Except.ok ())).2) ∈ (reg.stopAll onStop).agents ∧
         (BaseAgent.stop a (Except.ok ())).2.state = AgentState.stopped) ∧
    (∀ (ia ib : String) (aa ab : BaseAgent) (onStop : String → Except String Unit)
       (e : String),
       aa.state = AgentState.running → ab.state = AgentState.running →
       onStop ia = Except.ok () → onStop ib = Except.error e →
       ((AgentRegistry.stopAll ⟨[(ia, aa), (ib, ab)]⟩ onStop).agents.map
           fun p => (p.1, p.2.state))
         = [(ia, AgentState.stopped), (ib, AgentState.error)]) := by
  constructor
  · intro reg onStop id a hmem hrun ho
    constructor
    · have hx : (id, (BaseAgent.stop a (onStop id)).2) ∈
          reg.agents.map (fun p => (p.1, (BaseAgent.stop p.2 (onStop p.1)).2)) :=
        List.mem_map_of_mem _ hmem
      rw [ho] at hx
      exact hx
    · simp [BaseAgent.stop, hrun]
  · intro ia ib aa ab onStop e ha hb hoa hob
    simp [AgentRegistry.stopAll, BaseAgent.stop, ha, hb, hoa, hob]

/-- C5 witness: stopping the two-agent registry of running agents in
which agent-b's `onStop` throws still brings agent-a to `stopped`, while
agent-b lands in `error`. -/
theorem stopAll_isolates_witness :
    ((AgentRegistry.stopAll
        ⟨[("agent-a", runningAgentA), ("agent-b", runningAgentB)]⟩
        hooksFailB).agents.map fun p => (p.1, p.2.state))
      = [("agent-a", AgentState.stopped), ("agent-b", AgentState.error)] :=
  stopAll_isolates.2 "agent-a" "agent-b" runningAgentA runningAgentB hooksFailB
    "boom" rfl rfl rfl rfl

end DevOpsAgent
